import Mathlib

/-!
Verification of the dnse_trading repository's authentication / retry layer
(`src/rest/auth.py`, `src/rest/client.py`) and streaming tick-normalization
layer (`src/websocket/client.py`), as a shallow embedding in Lean.

Conventions of the embedding:
* Python `datetime` values are epoch seconds (`ℤ`); `datetime.now()` is an
  explicit `now : ℤ` argument.
* Python `Decimal` values are `ℚ` (decimal literals embed exactly);
  Python `int(...)` is truncation toward zero (`pyInt`).
* Python strings are Lean `String`s, or `List Char` where character-level
  processing (split/containment) matters.
* `aiohttp` / `paho-mqtt` are external: each HTTP attempt's outcome and each
  login's returned token are supplied by environment functions, and incoming
  MQTT payloads arrive already shaped (a malformed JSON body is an `.error`).
-/

namespace DnseTrading

/-! ### Constants (src/common/constants.py) -/

/-- `MAX_RETRIES = 3` (src/common/constants.py line 151). -/
def MAX_RETRIES : Nat := 3

/-- `RETRY_DELAY_SECONDS = 1` (src/common/constants.py line 152). -/
def RETRY_DELAY_SECONDS : ℚ := 1

/-- `TOKEN_EXPIRY_SECONDS = 8 * 60 * 60` (src/common/constants.py lines 108-109). -/
def TOKEN_EXPIRY_SECONDS : ℤ := 8 * 60 * 60

/-! ### Python numeric coercions -/

/-- Python `int(x)` on a number: truncation toward zero. -/
def pyInt (q : ℚ) : ℤ := if 0 ≤ q then q.floor else -((-q).floor)

/-- Python truthiness of an optional number: `None` and `0` are falsy. -/
def pyTruthyNum : Option ℚ → Bool
  | none => false
  | some x => decide (x ≠ 0)

/-- Python `a or b or ... or 0` over optional numbers: the first truthy
(present and non-zero) value wins, else `0`. -/
def firstTruthy : List (Option ℚ) → ℚ
  | [] => 0
  | a :: rest => if pyTruthyNum a then a.getD 0 else firstTruthy rest

/-! ### DNSETokens (src/common/types.py lines 124-142) -/

/-- `DNSETokens` dataclass: the trading-token fields default to `None`. -/
structure DNSETokens where
  jwt_token : String
  jwt_expires_at : ℤ
  trading_token : Option String := none
  trading_token_expires_at : Option ℤ := none
deriving DecidableEq

/-- `is_jwt_expired`: `datetime.now() >= self.jwt_expires_at`. -/
def DNSETokens.is_jwt_expired (t : DNSETokens) (now : ℤ) : Bool :=
  decide (t.jwt_expires_at ≤ now)

/-- `is_trading_token_expired`: missing token or missing expiry counts as
expired, otherwise `datetime.now() >= trading_token_expires_at`. -/
def DNSETokens.is_trading_token_expired (t : DNSETokens) (now : ℤ) : Bool :=
  match t.trading_token, t.trading_token_expires_at with
  | none, _ => true
  | some _, none => true
  | some _, some e => decide (e ≤ now)

/-! ### DNSEAuthProvider state transitions (src/rest/auth.py) -/

/-- Success path of `DNSEAuthProvider._login` (auth.py lines 156-177): the
provider's token state is replaced by a *fresh* `DNSETokens` built from only
the jwt fields; the dataclass defaults leave both trading-token fields `None`.
`jwt` is the `token` field of the 200 response. -/
def loginSuccess (jwt : String) (now : ℤ) : DNSETokens :=
  { jwt_token := jwt, jwt_expires_at := now + TOKEN_EXPIRY_SECONDS }

/-- Success path of `DNSEAuthProvider.get_trading_token` (auth.py lines
216-239): rebuilds the token state keeping the jwt fields and setting the
trading-token fields. -/
def tradingTokenSuccess (t : DNSETokens) (tradingTok : String) (now : ℤ) : DNSETokens :=
  { jwt_token := t.jwt_token
    jwt_expires_at := t.jwt_expires_at
    trading_token := some tradingTok
    trading_token_expires_at := some (now + TOKEN_EXPIRY_SECONDS) }

/-- `DNSEAuthProvider.is_authenticated` (auth.py lines 70-75). -/
def is_authenticated (tokens : Option DNSETokens) (now : ℤ) : Bool :=
  match tokens with
  | none => false
  | some t => !(t.is_jwt_expired now)

/-- `DNSEAuthProvider.has_trading_token` (auth.py lines 77-82). -/
def has_trading_token (tokens : Option DNSETokens) (now : ℤ) : Bool :=
  match tokens with
  | none => false
  | some t => !(t.is_trading_token_expired now)

/-- The header set built by `DNSEAuthProvider.get_auth_headers`
(auth.py lines 282-306): content-type always; `Authorization: Bearer <jwt>`
only when a truthy jwt token exists; `Trading-Token` only when requested and
a truthy trading token exists. -/
structure Headers where
  contentType : String
  authorization : Option String
  tradingToken : Option String
deriving DecidableEq

/-- `DNSEAuthProvider.get_auth_headers` (auth.py lines 282-306). -/
def get_auth_headers (tokens : Option DNSETokens) (include_trading_token : Bool) : Headers :=
  { contentType := "application/json"
    authorization :=
      match tokens with
      | none => none
      | some t => if t.jwt_token = "" then none else some ("Bearer " ++ t.jwt_token)
    tradingToken :=
      if include_trading_token then
        match tokens with
        | none => none
        | some t =>
          match t.trading_token with
          | none => none
          | some tt => if tt = "" then none else some tt
      else none }

/-- `ensure_authenticated` (auth.py lines 241-244) as a state transition:
logs in exactly when `is_authenticated` is false. Returns the new token state
and the number of login calls issued (0 or 1). `loginJwts k` is the token
returned by the k-th successful login POST of the request. -/
def ensure_authenticated_state (tokens : Option DNSETokens) (loginJwts : Nat → String)
    (now : ℤ) : Option DNSETokens × Nat :=
  if is_authenticated tokens now then (tokens, 0)
  else (some (loginSuccess (loginJwts 0) now), 1)

/-- `ensure_trading_token` (auth.py lines 246-251) as a state transition:
`ensure_authenticated` first, then `get_trading_token` when no valid trading
token is held. `otpTok` is the `tradingToken` field of a successful OTP
verification response. -/
def ensure_trading_token_state (tokens : Option DNSETokens) (loginJwts : Nat → String)
    (otpTok : String) (now : ℤ) : Option DNSETokens × Nat :=
  let p := ensure_authenticated_state tokens loginJwts now
  if has_trading_token p.1 now then p
  else
    match p.1 with
    | none => p
    | some t => (some (tradingTokenSuccess t otpTok now), p.2)

/-- The `ensure_*` step run by `DNSEHttpClient._request` before its first
attempt (client.py lines 162-166), switched on `require_trading_token`. -/
def ensureForRequest (tokens : Option DNSETokens) (loginJwts : Nat → String)
    (otpTok : String) (now : ℤ) (require_trading_token : Bool) :
    Option DNSETokens × Nat :=
  if require_trading_token then ensure_trading_token_state tokens loginJwts otpTok now
  else ensure_authenticated_state tokens loginJwts now

/-! ### DNSEHttpClient._request retry loop (src/rest/client.py lines 172-212) -/

/-- Outcome of one transport attempt, as seen by `_request`'s response
handling: 200 with an optional body (`none` models an empty response text,
for which the code returns `{}`), 401, another status with its body text, or
an `aiohttp.ClientError`. -/
inductive HttpResp where
  | ok (body : Option String)
  | unauthorized
  | errStatus (status : Nat) (text : String)
  | netError (msg : String)
deriving DecidableEq

/-- Result of `_request`: the parsed 200 body (`success none` is the empty
mapping), or the final `RuntimeError(f"Request failed after {MAX_RETRIES}
retries: {last_error}")` carrying whatever `last_error` holds. -/
inductive ReqResult where
  | success (body : Option String)
  | failure (lastError : Option String)
deriving DecidableEq

/-- Whether a request outcome is a failure carrying some recorded
status/error text (rather than Python's `None`). -/
def ReqResult.carriesErrorText : ReqResult → Bool
  | .failure (some _) => true
  | _ => false

/-- Mutable state of the retry loop, plus instrumentation of its observable
effects (attempt count, login calls, sleeps, headers sent per attempt).
`sleeps` and `headersUsed` accumulate in reverse. -/
structure RetrySt where
  tokens : Option DNSETokens
  headers : Headers
  lastError : Option String
  logins : Nat
  relogins : Nat
  attemptsMade : Nat
  sleeps : List ℚ
  headersUsed : List Headers
deriving DecidableEq

/-- Observable trace of one `_request` call. -/
structure ReqTrace where
  result : ReqResult
  attemptsMade : Nat
  relogins : Nat
  logins : Nat
  sleeps : List ℚ
  headersUsed : List Headers
deriving DecidableEq

/-- Finish the loop, re-ordering the accumulators. -/
def mkTrace (r : ReqResult) (st : RetrySt) : ReqTrace :=
  { result := r
    attemptsMade := st.attemptsMade
    relogins := st.relogins
    logins := st.logins
    sleeps := st.sleeps.reverse
    headersUsed := st.headersUsed.reverse }

/-- The `for attempt in range(MAX_RETRIES)` loop of `_request` (client.py
lines 172-212), recursing on attempts remaining; `remaining + attemptsMade`
always equals the attempt budget, so the backoff guard
`attempt < MAX_RETRIES - 1` is `remaining ≠ 0` after consuming the current
attempt. On 200 the body is returned; on 401 the code re-logs-in, rebuilds
the headers and `continue`s (skipping the backoff sleep and leaving
`last_error` untouched); on another status or a transport error it records
`last_error` and sleeps `RETRY_DELAY_SECONDS * 2 ** attempt` when attempts
remain. `respond n` is the transport outcome of attempt `n`. -/
def requestAttempts (respond : Nat → HttpResp) (loginJwts : Nat → String) (now : ℤ)
    (include_trading_token : Bool) : Nat → RetrySt → ReqTrace
  | 0, st => mkTrace (.failure st.lastError) st
  | remaining + 1, st =>
    let attempt := st.attemptsMade
    let st1 : RetrySt :=
      { st with attemptsMade := attempt + 1, headersUsed := st.headers :: st.headersUsed }
    match respond attempt with
    | .ok body => mkTrace (.success body) st1
    | .unauthorized =>
      let tokens := some (loginSuccess (loginJwts st1.logins) now)
      requestAttempts respond loginJwts now include_trading_token remaining
        { st1 with
            tokens := tokens
            headers := get_auth_headers tokens include_trading_token
            logins := st1.logins + 1
            relogins := st1.relogins + 1 }
    | .errStatus status text =>
      let st2 : RetrySt :=
        { st1 with lastError := some ("HTTP " ++ toString status ++ ": " ++ text) }
      let st3 : RetrySt :=
        if remaining = 0 then st2
        else { st2 with sleeps := RETRY_DELAY_SECONDS * 2 ^ attempt :: st2.sleeps }
      requestAttempts respond loginJwts now include_trading_token remaining st3
    | .netError msg =>
      let st2 : RetrySt := { st1 with lastError := some msg }
      let st3 : RetrySt :=
        if remaining = 0 then st2
        else { st2 with sleeps := RETRY_DELAY_SECONDS * 2 ^ attempt :: st2.sleeps }
      requestAttempts respond loginJwts now include_trading_token remaining st3

/-- `DNSEHttpClient._request` (client.py lines 130-212): the `ensure_*` step,
initial header construction, then the bounded retry loop. -/
def dnseRequest (respond : Nat → HttpResp) (loginJwts : Nat → String) (otpTok : String)
    (now : ℤ) (require_trading_token : Bool) (tokens0 : Option DNSETokens) : ReqTrace :=
  let p := ensureForRequest tokens0 loginJwts otpTok now require_trading_token
  requestAttempts respond loginJwts now require_trading_token MAX_RETRIES
    { tokens := p.1
      headers := get_auth_headers p.1 require_trading_token
      lastError := none
      logins := p.2
      relogins := 0
      attemptsMade := 0
      sleeps := []
      headersUsed := [] }

/-! ### Tick model (src/common/types.py lines 105-122, plus the order-book
fields used by src/websocket/client.py) -/

/-- Modelled from the spec: `DNSEOrderBookEntry`, one order-book level.
src/websocket/client.py imports and constructs it (with `price` and
`quantity`) but its definition is missing from the provided sources; spec §3
gives "an ordered sequence of order-book levels for bid and ask sides (each
level: price, quantity)". -/
structure DNSEOrderBookEntry where
  price : ℚ
  quantity : ℤ
deriving DecidableEq

/-- `DNSEMarketDataTick` (src/common/types.py lines 105-122). The `bids` and
`asks` fields are modelled from the spec: src/websocket/client.py passes
`bids=`/`asks=` when constructing the tick, but the provided types.py lacks
these fields; spec §3 lists the ordered level sequences, and spec §3's
invariant that a trade tick "carries zero-valued book levels" fixes their
default to the empty list. -/
structure DNSEMarketDataTick where
  symbol : List Char
  timestamp : ℤ
  last_price : ℚ
  last_volume : ℤ
  bid_price : ℚ
  bid_volume : ℤ
  ask_price : ℚ
  ask_volume : ℤ
  open_price : ℚ
  high_price : ℚ
  low_price : ℚ
  close_price : ℚ
  total_volume : ℤ
  total_value : ℚ
  bids : List DNSEOrderBookEntry := []
  asks : List DNSEOrderBookEntry := []
deriving DecidableEq

/-! ### Streaming payloads (the duck-typed JSON dicts read by the parsers) -/

/-- One element of a top-of-book `bid`/`offer`/`ask` array: a dict whose
`price`, `qtty` and `quantity` keys may each be absent. -/
structure LevelObj where
  price : Option ℚ := none
  qtty : Option ℚ := none
  quantity : Option ℚ := none
deriving DecidableEq

/-- A decoded streaming payload: a JSON dict from which both parsers read
their keys by best-effort lookup, every key possibly absent. -/
structure Payload where
  symbol : Option (List Char) := none
  matchPrice : Option ℚ := none
  lastPrice : Option ℚ := none
  matchQuantity : Option ℚ := none
  lastVolume : Option ℚ := none
  totalVolumeTraded : Option ℚ := none
  grossTradeAmount : Option ℚ := none
  openPrice : Option ℚ := none
  highestPrice : Option ℚ := none
  highPrice : Option ℚ := none
  lowestPrice : Option ℚ := none
  lowPrice : Option ℚ := none
  referencePrice : Option ℚ := none
  closePrice : Option ℚ := none
  bid : Option (List LevelObj) := none
  offer : Option (List LevelObj) := none
  ask : Option (List LevelObj) := none
deriving DecidableEq

/-- Python truthiness of an optional list: `None` and `[]` are falsy. -/
def pyTruthyList : Option (List LevelObj) → Bool
  | none => false
  | some l => !l.isEmpty

/-- Python `a or b or []` over optional lists of dicts. -/
def pyOrList (a b : Option (List LevelObj)) : List LevelObj :=
  if pyTruthyList a then a.getD [] else if pyTruthyList b then b.getD [] else []

/-! ### Tick parsers (src/websocket/client.py lines 277-336) -/

/-- `DNSEWebSocketClient._parse_stock_info` (websocket/client.py lines
277-290): alias resolution by Python `or` (first present *and non-zero*
value wins), `data.get("openPrice", 0)` by plain default, book scalars fixed
at zero, and no book levels. -/
def parse_stock_info (symbol : List Char) (now : ℤ) (data : Payload) :
    Option DNSEMarketDataTick :=
  some
    { symbol := symbol
      timestamp := now
      last_price := firstTruthy [data.matchPrice, data.lastPrice]
      last_volume := pyInt (firstTruthy [data.matchQuantity, data.lastVolume])
      total_volume := pyInt (firstTruthy [data.totalVolumeTraded])
      total_value := firstTruthy [data.grossTradeAmount]
      bid_price := 0
      bid_volume := 0
      ask_price := 0
      ask_volume := 0
      open_price := data.openPrice.getD 0
      high_price := firstTruthy [data.highestPrice, data.highPrice]
      low_price := firstTruthy [data.lowestPrice, data.lowPrice]
      close_price := firstTruthy [data.referencePrice, data.closePrice] }

/-- The per-level body of `_parse_top_price`'s loops (websocket/client.py
lines 298-305 and 310-317): `price = Decimal(str(b.get("price", 0)))`,
`qty = int(b.get("qtty") or b.get("quantity") or 0)`, and the level is kept
only when both are positive. (The surrounding `try/except` can only fire on
non-numeric values, which the typed payload excludes.) -/
def parseLevel (b : LevelObj) : Option DNSEOrderBookEntry :=
  let price := b.price.getD 0
  let qty := pyInt (firstTruthy [b.qtty, b.quantity])
  if 0 < price ∧ 0 < qty then some { price := price, quantity := qty } else none

/-- `DNSEWebSocketClient._parse_top_price` (websocket/client.py lines
292-336): filters the `bid` array and the `offer`-else-`ask` array through
`parseLevel`, mirrors the best (first) level of each filtered list into the
scalar fields with a zero placeholder for an empty side, and zeroes every
trade field. -/
def parse_top_price (symbol : List Char) (now : ℤ) (data : Payload) :
    Option DNSEMarketDataTick :=
  let bids := (pyOrList data.bid none).filterMap parseLevel
  let asks := (pyOrList data.offer data.ask).filterMap parseLevel
  let best_bid := bids.headD { price := 0, quantity := 0 }
  let best_ask := asks.headD { price := 0, quantity := 0 }
  some
    { symbol := symbol
      timestamp := now
      last_price := 0
      last_volume := 0
      total_volume := 0
      total_value := 0
      open_price := 0
      high_price := 0
      low_price := 0
      close_price := 0
      bid_price := best_bid.price
      bid_volume := best_bid.quantity
      ask_price := best_ask.price
      ask_volume := best_ask.quantity
      bids := bids
      asks := asks }

/-! ### Python string helpers used by src/websocket/client.py -/

/-- Python `sep in s` for strings (contiguous subsequence test). -/
def containsSeq (sep : List Char) : List Char → Bool
  | [] => sep.isEmpty
  | c :: rest => sep.isPrefixOf (c :: rest) || containsSeq sep rest

/-- Python `item.split(":", 1)`: the part before the first `':'` and the part
after it (the source only calls this under a `":" in item` guard). -/
def splitFirstColon (s : List Char) : List Char × List Char :=
  (s.takeWhile (fun c => c ≠ ':'), (s.dropWhile (fun c => c ≠ ':')).drop 1)

/-- The remainder after the first occurrence of `sep`, scanning left to
right, or `none` when `sep` never occurs. -/
def afterFirstSeq (sep : List Char) : List Char → Option (List Char)
  | [] => if sep.isEmpty then some [] else none
  | c :: rest =>
    if sep.isPrefixOf (c :: rest) then some ((c :: rest).drop sep.length)
    else afterFirstSeq sep rest

/-- Python `s.split(sep)[-1]`: the text after the last (left-to-right,
non-overlapping) occurrence of `sep`, or `s` itself when `sep` is absent.
Structured with a length fuel; one fuel unit is consumed per occurrence, and
each occurrence of a non-empty `sep` strictly shortens the remainder, so
`s.length` fuel is always enough. -/
def lastSegAux (sep : List Char) : Nat → List Char → List Char
  | 0, s => s
  | fuel + 1, s =>
    match afterFirstSeq sep s with
    | none => s
    | some rest => lastSegAux sep fuel rest

/-- Python `s.split(sep)[-1]` (used as `topic.split("/symbol/")[-1]`). -/
def pySplitLast (sep s : List Char) : List Char := lastSegAux sep s.length s

/-! ### DNSEWebSocketClient subscription state (src/websocket/client.py) -/

/-- MQTT topic templates (src/common/constants.py lines 94-97), with the
trailing `{symbol}` parameter appended by `.format(symbol=...)`. -/
def stockInfoTopicBase : List Char :=
  "plaintext/quotes/krx/mdds/stockinfo/v1/roundlot/symbol/".data

/-- See `stockInfoTopicBase`. -/
def topPriceTopicBase : List Char :=
  "plaintext/quotes/krx/mdds/topprice/v1/roundlot/symbol/".data

/-- `MQTT_TOPIC_STOCK_INFO.format(symbol=symbol)`. -/
def stockInfoTopic (symbol : List Char) : List Char := stockInfoTopicBase ++ symbol

/-- `MQTT_TOPIC_TOP_PRICE.format(symbol=symbol)`. -/
def topPriceTopic (symbol : List Char) : List Char := topPriceTopicBase ++ symbol

/-- The `f"INFO:{symbol}"` key stored in `_subscribed_symbols`. -/
def infoKey (symbol : List Char) : List Char := "INFO:".data ++ symbol

/-- The `f"TOP:{symbol}"` key stored in `_subscribed_symbols`. -/
def topKey (symbol : List Char) : List Char := "TOP:".data ++ symbol

/-- Python `set.add`, on a duplicate-free list in insertion order (the
model's fixed stand-in for the set's unspecified iteration order; the claims
proved below are insensitive to the order). -/
def setAdd (s : List (List Char)) (x : List Char) : List (List Char) :=
  if x ∈ s then s else s ++ [x]

/-- The client state the claims depend on: the tracked subscription-key set,
the `_is_connected` flag, and whether `_client` is non-`None`. -/
structure WSClientState where
  subscribed_symbols : List (List Char)
  is_connected : Bool
  clientPresent : Bool
deriving DecidableEq

/-- A call issued to the MQTT transport. -/
inductive TransportCall where
  | sub (topic : List Char)
  | unsub (topic : List Char)
deriving DecidableEq

/-- `subscribe_stock_info` (websocket/client.py lines 166-175): when not
connected (or no client), only queue the key; when connected, issue the
transport subscribe — unconditionally, with no membership check — and add
the key. Returns the new state and the transport calls issued. -/
def subscribe_stock_info (st : WSClientState) (symbol : List Char) :
    WSClientState × List TransportCall :=
  if !st.is_connected || !st.clientPresent then
    ({ st with subscribed_symbols := setAdd st.subscribed_symbols (infoKey symbol) }, [])
  else
    ({ st with subscribed_symbols := setAdd st.subscribed_symbols (infoKey symbol) },
      [.sub (stockInfoTopic symbol)])

/-- `subscribe_top_price` (websocket/client.py lines 177-186). -/
def subscribe_top_price (st : WSClientState) (symbol : List Char) :
    WSClientState × List TransportCall :=
  if !st.is_connected || !st.clientPresent then
    ({ st with subscribed_symbols := setAdd st.subscribed_symbols (topKey symbol) }, [])
  else
    ({ st with subscribed_symbols := setAdd st.subscribed_symbols (topKey symbol) },
      [.sub (topPriceTopic symbol)])

/-- `subscribe` (websocket/client.py lines 159-164): stock-info then
top-price, concatenating the transport calls. -/
def wsSubscribe (st : WSClientState) (symbol : List Char) :
    WSClientState × List TransportCall :=
  let p := subscribe_stock_info st symbol
  let q := subscribe_top_price p.1 symbol
  (q.1, p.2 ++ q.2)

/-- The topic re-derived from one stored key inside `_on_mqtt_connect`
(websocket/client.py lines 204-219): split at the first `':'` (keys without
one default to `INFO`), then map the tag to its topic template, unknown tags
falling back to stock-info. -/
def resubTopic (item : List Char) : List Char :=
  let p := if containsSeq (":".data) item then splitFirstColon item
           else ("INFO".data, item)
  if p.1 = "INFO".data then stockInfoTopic p.2
  else if p.1 = "TOP".data then topPriceTopic p.2
  else stockInfoTopic p.2

/-- `_on_mqtt_connect` (websocket/client.py lines 197-230): on `rc = 0` set
connected and re-send a transport subscribe for every tracked key; on a
non-zero `rc` just mark disconnected. -/
def on_mqtt_connect (st : WSClientState) (rc : Nat) :
    WSClientState × List TransportCall :=
  if rc = 0 then
    ({ st with is_connected := true },
      st.subscribed_symbols.map (fun item => .sub (resubTopic item)))
  else
    ({ st with is_connected := false }, [])

/-- `_on_mqtt_disconnect` (websocket/client.py lines 232-241): clears only
the connected flag; the subscription set is kept. -/
def on_mqtt_disconnect (st : WSClientState) : WSClientState :=
  { st with is_connected := false }

/-- `disconnect` (websocket/client.py lines 143-157): drops the client,
clears the connected flag and empties the subscription set. -/
def wsDisconnect (_st : WSClientState) : WSClientState :=
  { subscribed_symbols := [], is_connected := false, clientPresent := false }

/-- `connect` (websocket/client.py lines 97-141): an existing client is torn
down first; then a fresh client is created and its background network loop
started (the `Connected` transition itself arrives later via
`_on_mqtt_connect`). -/
def wsConnect (st : WSClientState) : WSClientState :=
  let st1 := if st.clientPresent then wsDisconnect st else st
  { st1 with clientPresent := true }

/-! ### Message dispatch (src/websocket/client.py lines 243-275) -/

/-- The body of `_on_mqtt_message`'s `try` block: decode the payload
(`json.loads`, whose failure on malformed input is the `.error` case of
`decoded`), classify the topic, extract the symbol from the topic path (or
the payload's `symbol` field), parse, and collect the ticks handed to the
registered callback. -/
def onMessageTryBody (topic : List Char) (decoded : Except String Payload)
    (now : ℤ) : Except String (List DNSEMarketDataTick) := do
  let data ← decoded
  let tick : Option DNSEMarketDataTick :=
    if containsSeq ("stockinfo".data) topic then
      let symbol :=
        if containsSeq ("/symbol/".data) topic then pySplitLast ("/symbol/".data) topic
        else data.symbol.getD []
      parse_stock_info symbol now data
    else if containsSeq ("topprice".data) topic then
      let symbol :=
        if containsSeq ("/symbol/".data) topic then pySplitLast ("/symbol/".data) topic
        else data.symbol.getD []
      parse_top_price symbol now data
    else none
  pure (match tick with | some t => [t] | none => [])

/-- `_on_mqtt_message` (websocket/client.py lines 243-275): the whole body
runs inside `try/except Exception`, so a failure is logged and produces no
callback invocation and no exception to the transport; the handler never
touches the subscription or connection state, which is threaded through
unchanged. Returns (state, ticks delivered, exception escaped). -/
def on_mqtt_message (st : WSClientState) (topic : List Char)
    (decoded : Except String Payload) (now : ℤ) :
    WSClientState × List DNSEMarketDataTick × Bool :=
  match onMessageTryBody topic decoded now with
  | .ok ticks => (st, ticks, false)
  | .error _ => (st, [], false)

/-! ### Concurrent `ensure_authenticated` (src/rest/auth.py lines 241-244)

`ensure_authenticated` is `if not self.is_authenticated: await self._login()`
with no lock anywhere in the provider. On the cooperative event loop each
caller runs atomically from its `is_authenticated` check through `_login`'s
synchronous prefix, up to awaiting the HTTP POST — at which point other
callers may run; the POST's completion (storing the fresh tokens) is a later
step. The model below is that two-step program, executed under an explicit
interleaving (the schedule). -/

/-- Progress of one `ensure_authenticated` caller. -/
inductive EnsurePhase where
  | notStarted
  | awaitingLogin
  | done
deriving DecidableEq

/-- Shared auth-provider state plus the callers' progress. `valid` is
`is_authenticated`; `loginCalls` counts login POSTs issued. -/
structure EnsureWorld where
  valid : Bool
  loginCalls : Nat
  tasks : List EnsurePhase
deriving DecidableEq

/-- Run the next step of caller `i` (a no-op for an out-of-range or finished
caller): from `notStarted`, check `is_authenticated` and either finish or
issue a login POST and suspend on it; from `awaitingLogin`, process the
response, storing valid tokens. -/
def ensureStep (w : EnsureWorld) (i : Nat) : EnsureWorld :=
  match w.tasks[i]? with
  | none => w
  | some .notStarted =>
    if w.valid then { w with tasks := w.tasks.set i .done }
    else { w with loginCalls := w.loginCalls + 1, tasks := w.tasks.set i .awaitingLogin }
  | some .awaitingLogin => { w with valid := true, tasks := w.tasks.set i .done }
  | some .done => w

/-- Execute a schedule (a list of caller indices) step by step. -/
def ensureRun (w : EnsureWorld) : List Nat → EnsureWorld
  | [] => w
  | i :: rest => ensureRun (ensureStep w i) rest

/-- `n` concurrent `ensure_authenticated` callers with no valid token held. -/
def ensureWorld0 (n : Nat) : EnsureWorld :=
  { valid := false, loginCalls := 0, tasks := List.replicate n .notStarted }

/-! ### Spec-side definition for the alias-resolution claim -/

/-- The alias-resolution rule as the spec words it ("first non-null wins, in
a fixed priority order", absent fields defaulting to zero): the first
*present* value wins even when it is zero. Stated from the spec, not the
source, for comparison against `firstTruthy`. -/
def specFirstNonNull : List (Option ℚ) → ℚ
  | [] => 0
  | some x :: _ => x
  | none :: rest => specFirstNonNull rest

/-! ### Concrete instances used by witnesses and counterexamples -/

/-- A token state holding both a jwt and a trading token (expiries at 100). -/
def tokensWithTrading : DNSETokens :=
  { jwt_token := "J0", jwt_expires_at := 100,
    trading_token := some ("TT"), trading_token_expires_at := some 100 }

/-- A valid (unexpired at `now = 0`) primary-only token state. -/
def tokensPrimaryOnly : DNSETokens := { jwt_token := "J0", jwt_expires_at := 100 }

/-- Environment: every attempt returns 401. -/
def envAll401 : Nat → HttpResp := fun _ => .unauthorized

/-- Environment: every attempt returns 500 with body text `"boom"`. -/
def envAll500 : Nat → HttpResp := fun _ => .errStatus 500 "boom"

/-- Environment: 401 on the first attempt, 200 with a body afterwards. -/
def env401Then200 : Nat → HttpResp :=
  fun n => if n = 0 then .unauthorized else .ok (some ("{}"))

/-- Environment: the k-th login POST returns jwt `"J1"`, `"J2"`, ... -/
def envJwts : Nat → String := fun k => "J" ++ toString (k + 1)

/-- The spec's example top-of-book payload
`{"bid":[{"price":74900,"qtty":500}], "offer":[{"price":75100,"qtty":300}]}`. -/
def payloadC4 : Payload :=
  { bid := some [{ price := some 74900, qtty := some 500 }]
    offer := some [{ price := some 75100, qtty := some 300 }] }

/-- The spec's example trade-info payload
`{"matchPrice": 75000, "matchQuantity": 100}`. -/
def payloadC8 : Payload := { matchPrice := some 75000, matchQuantity := some 100 }

/-- A trade-info payload whose highest-priority alias holds the (falsy)
value `0` while the lower-priority alias holds `5`. -/
def payloadC8cex : Payload := { matchPrice := some 0, lastPrice := some 5 }

/-- The tick the spec's top-of-book example should produce. -/
def tickC4 (sym : List Char) (now : ℤ) : DNSEMarketDataTick :=
  { symbol := sym, timestamp := now, last_price := 0, last_volume := 0,
    bid_price := 74900, bid_volume := 500, ask_price := 75100, ask_volume := 300,
    open_price := 0, high_price := 0, low_price := 0, close_price := 0,
    total_volume := 0, total_value := 0,
    bids := [{ price := 74900, quantity := 500 }],
    asks := [{ price := 75100, quantity := 300 }] }

/-- The tick the spec's trade-info example should produce: trade fields
populated, everything else zero, book levels empty. -/
def tickC8 (sym : List Char) (now : ℤ) : DNSEMarketDataTick :=
  { symbol := sym, timestamp := now, last_price := 75000, last_volume := 100,
    bid_price := 0, bid_volume := 0, ask_price := 0, ask_volume := 0,
    open_price := 0, high_price := 0, low_price := 0, close_price := 0,
    total_volume := 0, total_value := 0 }

/-- The tick `_parse_stock_info` produces from `payloadC8cex`: the zero in
`matchPrice` is skipped by Python `or`, so `last_price` is `5`. -/
def tickC8cex : DNSEMarketDataTick :=
  { symbol := [], timestamp := 0, last_price := 5, last_volume := 0,
    bid_price := 0, bid_volume := 0, ask_price := 0, ask_volume := 0,
    open_price := 0, high_price := 0, low_price := 0, close_price := 0,
    total_volume := 0, total_value := 0 }

/-- A fresh, never-connected websocket client state. -/
def c5Init : WSClientState :=
  { subscribed_symbols := [], is_connected := false, clientPresent := false }

/-- A connected client state already subscribed to stock-info for `"ABC"`. -/
def stC6 : WSClientState :=
  { subscribed_symbols := [infoKey ("ABC".data)], is_connected := true,
    clientPresent := true }

/-- A connected client state already subscribed to both feed-kinds for
`"ABC"`. -/
def stC6both : WSClientState :=
  { subscribed_symbols := [infoKey ("ABC".data), topKey ("ABC".data)],
    is_connected := true, clientPresent := true }

/-! ## Theorems -/

/-! ### C1 — `_login` and the stored secondary token -/

/-- C1 counterexample: starting from a credential state holding the secondary
(trading) token `"TT"`, the state stored by `_login`'s success path has no
secondary token at all — `DNSETokens(jwt_token=..., jwt_expires_at=...)`
leaves the trading fields at their `None` defaults, so the previously stored
secondary token is not preserved. -/
theorem login_drops_trading_token_cex :
    tokensWithTrading.trading_token = some ("TT") ∧
    (loginSuccess ("J1") 10).trading_token = none ∧
    (loginSuccess ("J1") 10).trading_token ≠ tokensWithTrading.trading_token := by
  refine ⟨rfl, rfl, ?_⟩
  decide

/-- C1 amended: a successful `login()` overwrites the *entire* credential
state: it stores a `DNSETokens` whose jwt fields come from the response and
whose secondary-token fields are reset to `None`, regardless of any
previously stored secondary token (which `_login` never reads). -/
theorem login_overwrites_whole_state (jwt : String) (now : ℤ) :
    (loginSuccess jwt now).jwt_token = jwt ∧
    (loginSuccess jwt now).jwt_expires_at = now + TOKEN_EXPIRY_SECONDS ∧
    (loginSuccess jwt now).trading_token = none ∧
    (loginSuccess jwt now).trading_token_expires_at = none :=
  ⟨rfl, rfl, rfl, rfl⟩

/-- C1 amended, witness: a concrete login response at time 10. -/
theorem login_overwrites_whole_state_witness :
    (loginSuccess ("J1") 10).jwt_token = "J1" ∧
    (loginSuccess ("J1") 10).jwt_expires_at = 10 + TOKEN_EXPIRY_SECONDS ∧
    (loginSuccess ("J1") 10).trading_token = none ∧
    (loginSuccess ("J1") 10).trading_token_expires_at = none :=
  login_overwrites_whole_state ("J1") 10

/-! ### C7 — concurrent `ensure_authenticated` -/

/-- C7 counterexample: two `ensure_authenticated` callers starting with no
valid token, interleaved so that both run their `is_authenticated` check
before either login completes (schedule task 0, task 1, then both
completions), issue two login calls — not exactly one. -/
theorem ensure_concurrent_two_logins_cex :
    (ensureRun (ensureWorld0 2) [0, 1, 0, 1]).loginCalls = 2 ∧
    (ensureRun (ensureWorld0 2) [0, 1, 0, 1]).loginCalls ≠ 1 := by
  decide

/-- C7 amended: `ensure_authenticated` holds no lock, so logins are not
serialized: every caller scheduled while no valid token is held issues its
own login call (first conjunct); with two concurrent callers interleaved
before any login completes, two logins are issued, whereas running the
callers strictly one after another issues exactly one. -/
theorem ensure_not_serialized (w : EnsureWorld) (i : Nat) :
    (w.valid = false → w.tasks[i]? = some .notStarted →
      (ensureStep w i).loginCalls = w.loginCalls + 1) ∧
    (ensureRun (ensureWorld0 2) [0, 1, 0, 1]).loginCalls = 2 ∧
    (ensureRun (ensureWorld0 2) [0, 0, 1]).loginCalls = 1 := by
  refine ⟨?_, by decide, by decide⟩
  intro hv ht
  simp [ensureStep, ht, hv]

/-- C7 amended, witness: the first caller of two, scheduled while no valid
token is held, issues a login call. -/
theorem ensure_not_serialized_witness :
    (ensureWorld0 2).valid = false ∧
    (ensureWorld0 2).tasks[0]? = some .notStarted ∧
    (ensureStep (ensureWorld0 2) 0).loginCalls = (ensureWorld0 2).loginCalls + 1 :=
  ⟨by decide, by decide, (ensure_not_serialized (ensureWorld0 2) 0).1 (by decide) (by decide)⟩

/-! ### C9 — malformed streaming payload -/

/-- C9: for every topic and every malformed payload (one on which
`json.loads` fails), `_on_mqtt_message` delivers zero ticks to the callback,
lets no exception escape, and leaves the subscription/connection state
unchanged. -/
theorem malformed_message_dropped (st : WSClientState) (topic : List Char)
    (e : String) (now : ℤ) :
    on_mqtt_message st topic (.error e) now = (st, [], false) := rfl

/-- C9 witness: a fresh client state, an arbitrary topic, a malformed
payload. -/
theorem malformed_message_dropped_witness :
    on_mqtt_message c5Init ("sometopic".data) (.error ("bad json")) 0
      = (c5Init, [], false) :=
  malformed_message_dropped c5Init ("sometopic".data) ("bad json") 0

/-! ### C6 — re-subscribing an already-subscribed pair -/

/-- C6 counterexample: with the client connected and `"ABC"`'s stock-info
pair already in the subscription set, calling `subscribe_stock_info("ABC")`
again is *not* a transport-level no-op: the code has no membership check and
re-sends the transport subscribe call. -/
theorem resubscribe_sends_call_cex :
    infoKey ("ABC".data) ∈ stC6.subscribed_symbols ∧
    stC6.is_connected = true ∧
    (subscribe_stock_info stC6 ("ABC".data)).2 ≠ [] := by
  refine ⟨by decide, rfl, ?_⟩
  decide

/-- C6 amended: for either feed-kind, re-subscribing an already-subscribed
(symbol, feed-kind) pair while connected leaves the subscription set (and
the whole client state) unchanged and raises nothing — the call is safe and
idempotent on the tracked set — but one duplicate transport subscribe call
for that feed-kind's topic is re-sent. -/
theorem resubscribe_idempotent_state (st : WSClientState) (s : List Char)
    (hc : st.is_connected = true) (hp : st.clientPresent = true) :
    (infoKey s ∈ st.subscribed_symbols →
      subscribe_stock_info st s = (st, [.sub (stockInfoTopic s)])) ∧
    (topKey s ∈ st.subscribed_symbols →
      subscribe_top_price st s = (st, [.sub (topPriceTopic s)])) := by
  obtain ⟨subs, conn, cp⟩ := st
  simp only at hc hp
  subst hc
  subst hp
  constructor <;> intro hm <;>
    simp only at hm <;>
    simp [subscribe_stock_info, subscribe_top_price, setAdd, hm]

/-- C6 amended, witness: the connected state `stC6both`, already subscribed
to both feed-kinds for `"ABC"`, re-subscribed to each of them. -/
theorem resubscribe_idempotent_state_witness :
    subscribe_stock_info stC6both ("ABC".data)
        = (stC6both, [.sub (stockInfoTopic ("ABC".data))]) ∧
    subscribe_top_price stC6both ("ABC".data)
        = (stC6both, [.sub (topPriceTopic ("ABC".data))]) :=
  ⟨(resubscribe_idempotent_state stC6both ("ABC".data) rfl rfl).1 (by decide),
   (resubscribe_idempotent_state stC6both ("ABC".data) rfl rfl).2 (by decide)⟩

/-! ### C4 — top-of-book parsing -/

/-- Levels kept by `_parse_top_price`'s loops have positive price and
positive quantity. -/
theorem parseLevel_pos (b : LevelObj) (e : DNSEOrderBookEntry)
    (h : parseLevel b = some e) : 0 < e.price ∧ 0 < e.quantity := by
  simp only [parseLevel] at h
  split_ifs at h with hcond
  cases h
  exact hcond

/-- C4: on the spec's example payload, `_parse_top_price` yields best bid
74900×500, best ask 75100×300 and one-element level lists; and on *every*
payload, every level in the produced tick's bid and ask lists has positive
price and positive quantity — a level with zero price or non-positive
quantity is excluded entirely, never defaulted. -/
theorem top_price_example_and_filtering (sym : List Char) (now : ℤ) :
    parse_top_price sym now payloadC4 = some (tickC4 sym now) ∧
    ∀ (data : Payload) (t : DNSEMarketDataTick),
      parse_top_price sym now data = some t →
        (∀ e ∈ t.bids, 0 < e.price ∧ 0 < e.quantity) ∧
        (∀ e ∈ t.asks, 0 < e.price ∧ 0 < e.quantity) := by
  refine ⟨rfl, ?_⟩
  intro data t h
  simp only [parse_top_price, Option.some.injEq] at h
  subst h
  constructor <;> intro e he <;>
    · rw [List.mem_filterMap] at he
      obtain ⟨b, _, hpb⟩ := he
      exact parseLevel_pos b e hpb

/-- C4 witness: the example payload's retained bid level, positive as the
filtering theorem requires. -/
theorem top_price_example_and_filtering_witness :
    parse_top_price [] 0 payloadC4 = some (tickC4 [] 0) ∧
    (0:ℚ) < 74900 ∧ (0:ℤ) < 500 := by
  refine ⟨(top_price_example_and_filtering [] 0).1, ?_⟩
  have hmem : ({ price := 74900, quantity := 500 } : DNSEOrderBookEntry) ∈ (tickC4 [] 0).bids := by
    decide
  exact ((top_price_example_and_filtering [] 0).2 payloadC4 (tickC4 [] 0)
    (top_price_example_and_filtering [] 0).1).1 _ hmem

/-! ### C8 — trade-info parsing and alias resolution -/

/-- C8 counterexample: alias keys are *not* resolved "first non-null": on a
payload with `matchPrice = 0` and `lastPrice = 5`, Python `or` skips the
null-but-present zero and `_parse_stock_info` reports `last_price = 5`,
while the claimed first-non-null rule yields 0. -/
theorem stock_info_alias_cex :
    parse_stock_info [] 0 payloadC8cex = some tickC8cex ∧
    tickC8cex.last_price = 5 ∧
    specFirstNonNull [payloadC8cex.matchPrice, payloadC8cex.lastPrice] = 0 ∧
    tickC8cex.last_price ≠
      specFirstNonNull [payloadC8cex.matchPrice, payloadC8cex.lastPrice] := by
  refine ⟨rfl, rfl, rfl, ?_⟩
  decide

/-- C8 amended: on the spec's example trade-info payload (`matchPrice` 75000
and `matchQuantity` 100 only), `_parse_stock_info` produces
`last_price = 75000`, `last_volume = 100`, empty book levels and all other
numeric fields zero; and the alias resolution is first-*truthy* (first
present and non-zero value, in the fixed priority order, absent or zero
falling through, defaulting to zero) — which agrees with the claimed
first-non-null rule whenever no alias holds a present zero. -/
theorem stock_info_example_and_alias (sym : List Char) (now : ℤ) :
    parse_stock_info sym now payloadC8 = some (tickC8 sym now) ∧
    ∀ xs : List (Option ℚ), (∀ x ∈ xs, x ≠ some 0) →
      firstTruthy xs = specFirstNonNull xs := by
  refine ⟨rfl, ?_⟩
  intro xs hz
  induction xs with
  | nil => rfl
  | cons a rest ih =>
    match a with
    | none =>
      simp only [firstTruthy, pyTruthyNum, specFirstNonNull]
      exact ih (fun x hx => hz x (List.mem_cons_of_mem _ hx))
    | some v =>
      have hv : v ≠ 0 := by
        intro h
        exact hz (some v) (List.mem_cons_self _ _) (by rw [h])
      simp [firstTruthy, pyTruthyNum, specFirstNonNull, hv]

/-- C8 witness: the example payload at a concrete symbol and time, and the
alias agreement applied to the example's own priority list. -/
theorem stock_info_example_and_alias_witness :
    parse_stock_info [] 0 payloadC8 = some (tickC8 [] 0) ∧
    firstTruthy [payloadC8.matchPrice, payloadC8.lastPrice] =
      specFirstNonNull [payloadC8.matchPrice, payloadC8.lastPrice] :=
  ⟨(stock_info_example_and_alias [] 0).1,
    (stock_info_example_and_alias [] 0).2 _ (by decide)⟩

/-! ### C5 — subscription replay on (re)connect -/

/-- The two stored keys for one symbol differ (their tag lengths differ). -/
theorem infoKey_ne_topKey (s : List Char) : infoKey s ≠ topKey s := by
  intro h
  have := congrArg List.length h
  simp [infoKey, topKey, List.length_append] at this

/-- The two feed-kind topics for one symbol differ (the template lengths
differ). -/
theorem stockInfoTopic_ne_topPriceTopic (s : List Char) :
    stockInfoTopic s ≠ topPriceTopic s := by
  intro h
  have := congrArg List.length h
  simp [stockInfoTopic, topPriceTopic, stockInfoTopicBase, topPriceTopicBase,
    List.length_append] at this

/-- An `INFO:`-tagged key always contains a colon. -/
theorem containsColon_infoKey (s : List Char) :
    containsSeq (":".data) (infoKey s) = true := by
  simp [infoKey, show ("INFO:".data) = ['I', 'N', 'F', 'O', ':'] from rfl,
    show (":".data) = [':'] from rfl, containsSeq, List.isPrefixOf]

/-- A `TOP:`-tagged key always contains a colon. -/
theorem containsColon_topKey (s : List Char) :
    containsSeq (":".data) (topKey s) = true := by
  simp [topKey, show ("TOP:".data) = ['T', 'O', 'P', ':'] from rfl,
    show (":".data) = [':'] from rfl, containsSeq, List.isPrefixOf]

/-- Splitting an `INFO:`-tagged key at its first colon recovers the tag and
the symbol. -/
theorem splitFirstColon_infoKey (s : List Char) :
    splitFirstColon (infoKey s) = ("INFO".data, s) := by
  simp [splitFirstColon, infoKey,
    show ("INFO:".data) = ['I', 'N', 'F', 'O', ':'] from rfl,
    List.takeWhile_cons, List.dropWhile_cons]

/-- Splitting a `TOP:`-tagged key at its first colon recovers the tag and
the symbol. -/
theorem splitFirstColon_topKey (s : List Char) :
    splitFirstColon (topKey s) = ("TOP".data, s) := by
  simp [splitFirstColon, topKey,
    show ("TOP:".data) = ['T', 'O', 'P', ':'] from rfl,
    List.takeWhile_cons, List.dropWhile_cons]

/-- `_on_mqtt_connect`'s per-key topic reconstruction maps an `INFO:` key to
the stock-info topic of its symbol. -/
theorem resubTopic_infoKey (s : List Char) :
    resubTopic (infoKey s) = stockInfoTopic s := by
  unfold resubTopic
  rw [containsColon_infoKey, if_pos rfl, splitFirstColon_infoKey]
  simp

/-- `_on_mqtt_connect`'s per-key topic reconstruction maps a `TOP:` key to
the top-price topic of its symbol. -/
theorem resubTopic_topKey (s : List Char) :
    resubTopic (topKey s) = topPriceTopic s := by
  unfold resubTopic
  rw [containsColon_topKey, if_pos rfl, splitFirstColon_topKey]
  have h1 : ("TOP".data) ≠ ("INFO".data) := by decide
  simp [h1]

/-- C5: subscribing to a symbol while disconnected issues no transport call
and queues both feed-kind keys; the transition to connected then issues
exactly the two distinct transport subscribe calls (one per feed-kind); and
after a transport-level drop, the next connected transition re-issues both
calls again from the still-tracked subscription set. -/
theorem subscribe_replay_on_connect (s : List Char) :
    (wsSubscribe c5Init s).2 = [] ∧
    (wsSubscribe c5Init s).1.subscribed_symbols = [infoKey s, topKey s] ∧
    (on_mqtt_connect (wsConnect (wsSubscribe c5Init s).1) 0).2
      = [.sub (stockInfoTopic s), .sub (topPriceTopic s)] ∧
    stockInfoTopic s ≠ topPriceTopic s ∧
    (on_mqtt_connect (on_mqtt_disconnect
        (on_mqtt_connect (wsConnect (wsSubscribe c5Init s).1) 0).1) 0).2
      = [.sub (stockInfoTopic s), .sub (topPriceTopic s)] := by
  have hne : ¬ (topKey s = infoKey s) := fun h => infoKey_ne_topKey s h.symm
  have hsub : wsSubscribe c5Init s =
      ({ subscribed_symbols := [infoKey s, topKey s], is_connected := false,
         clientPresent := false }, []) := by
    simp [wsSubscribe, subscribe_stock_info, subscribe_top_price, c5Init, setAdd, hne]
  refine ⟨by rw [hsub], by rw [hsub], ?_, stockInfoTopic_ne_topPriceTopic s, ?_⟩ <;>
    simp [hsub, wsConnect, wsDisconnect, on_mqtt_connect, on_mqtt_disconnect,
      resubTopic_infoKey, resubTopic_topKey]

/-- C5 witness: the scenario at the spec's example symbol `"ABC"`. -/
theorem subscribe_replay_on_connect_witness :
    (wsSubscribe c5Init ("ABC".data)).2 = [] ∧
    (wsSubscribe c5Init ("ABC".data)).1.subscribed_symbols
      = [infoKey ("ABC".data), topKey ("ABC".data)] ∧
    (on_mqtt_connect (wsConnect (wsSubscribe c5Init ("ABC".data)).1) 0).2
      = [.sub (stockInfoTopic ("ABC".data)), .sub (topPriceTopic ("ABC".data))] ∧
    stockInfoTopic ("ABC".data) ≠ topPriceTopic ("ABC".data) ∧
    (on_mqtt_connect (on_mqtt_disconnect
        (on_mqtt_connect (wsConnect (wsSubscribe c5Init ("ABC".data)).1) 0).1) 0).2
      = [.sub (stockInfoTopic ("ABC".data)), .sub (topPriceTopic ("ABC".data))] :=
  subscribe_replay_on_connect ("ABC".data)

/-! ### C2, C3, C10 — the retry loop -/

/-- One unfolding of the retry loop. -/
theorem requestAttempts_succ (respond : Nat → HttpResp) (loginJwts : Nat → String)
    (now : ℤ) (itt : Bool) (m : Nat) (st : RetrySt) :
    requestAttempts respond loginJwts now itt (m + 1) st =
      (let attempt := st.attemptsMade
       let st1 : RetrySt :=
         { st with attemptsMade := attempt + 1, headersUsed := st.headers :: st.headersUsed }
       match respond attempt with
       | .ok body => mkTrace (.success body) st1
       | .unauthorized =>
         let tokens := some (loginSuccess (loginJwts st1.logins) now)
         requestAttempts respond loginJwts now itt m
           { st1 with
               tokens := tokens
               headers := get_auth_headers tokens itt
               logins := st1.logins + 1
               relogins := st1.relogins + 1 }
       | .errStatus status text =>
         let st2 : RetrySt :=
           { st1 with lastError := some ("HTTP " ++ toString status ++ ": " ++ text) }
         let st3 : RetrySt :=
           if m = 0 then st2
           else { st2 with sleeps := RETRY_DELAY_SECONDS * 2 ^ attempt :: st2.sleeps }
         requestAttempts respond loginJwts now itt m st3
       | .netError msg =>
         let st2 : RetrySt := { st1 with lastError := some msg }
         let st3 : RetrySt :=
           if m = 0 then st2
           else { st2 with sleeps := RETRY_DELAY_SECONDS * 2 ^ attempt :: st2.sleeps }
         requestAttempts respond loginJwts now itt m st3) := rfl

/-- The retry loop with no attempts left raises with the recorded error. -/
theorem requestAttempts_zero (respond : Nat → HttpResp) (loginJwts : Nat → String)
    (now : ℤ) (itt : Bool) (st : RetrySt) :
    requestAttempts respond loginJwts now itt 0 st =
      mkTrace (.failure st.lastError) st := rfl

/-- With a valid primary token held, the `ensure_*` step before the loop
issues no login call. -/
theorem ensureForRequest_snd_zero (tokens0 : Option DNSETokens) (loginJwts : Nat → String)
    (otpTok : String) (now : ℤ) (itt : Bool)
    (h : is_authenticated tokens0 now = true) :
    (ensureForRequest tokens0 loginJwts otpTok now itt).2 = 0 := by
  unfold ensureForRequest ensure_trading_token_state ensure_authenticated_state
  cases itt <;> simp [h]
  split
  · rfl
  · cases tokens0 <;> simp

/-- C2: against an endpoint answering 401 on the first attempt and 200 on
the second, `_request` returns the parsed 200 body to the caller (raising
nothing), performs exactly one re-login, sleeps no backoff delay at all, and
sends the second attempt with headers rebuilt from the freshly obtained
token. -/
theorem request_401_then_200 (respond : Nat → HttpResp) (loginJwts : Nat → String)
    (otpTok : String) (now : ℤ) (itt : Bool) (tokens0 : Option DNSETokens)
    (body : Option String)
    (hauth : is_authenticated tokens0 now = true)
    (h0 : respond 0 = .unauthorized) (h1 : respond 1 = .ok body) :
    (dnseRequest respond loginJwts otpTok now itt tokens0).result = .success body ∧
    (dnseRequest respond loginJwts otpTok now itt tokens0).relogins = 1 ∧
    (dnseRequest respond loginJwts otpTok now itt tokens0).sleeps = [] ∧
    (dnseRequest respond loginJwts otpTok now itt tokens0).attemptsMade = 2 ∧
    (dnseRequest respond loginJwts otpTok now itt tokens0).headersUsed =
      [get_auth_headers (ensureForRequest tokens0 loginJwts otpTok now itt).1 itt,
       get_auth_headers (some (loginSuccess (loginJwts 0) now)) itt] := by
  have hz := ensureForRequest_snd_zero tokens0 loginJwts otpTok now itt hauth
  rcases hE : ensureForRequest tokens0 loginJwts otpTok now itt with ⟨t1, k⟩
  rw [hE] at hz
  simp only at hz
  subst hz
  unfold dnseRequest
  rw [hE]
  rw [show MAX_RETRIES = 2 + 1 from rfl, requestAttempts_succ]
  simp only [h0]
  rw [show (2 : Nat) = 1 + 1 from rfl, requestAttempts_succ]
  simp only [h1]
  simp [mkTrace]

/-- C2 witness: a concrete 401-then-200 environment starting from a valid
primary-only token state. -/
theorem request_401_then_200_witness :
    (dnseRequest env401Then200 envJwts ("O") 0 false (some tokensPrimaryOnly)).result
        = .success (some ("{}")) ∧
    (dnseRequest env401Then200 envJwts ("O") 0 false (some tokensPrimaryOnly)).relogins = 1 ∧
    (dnseRequest env401Then200 envJwts ("O") 0 false (some tokensPrimaryOnly)).sleeps = [] ∧
    (dnseRequest env401Then200 envJwts ("O") 0 false (some tokensPrimaryOnly)).attemptsMade = 2 ∧
    (dnseRequest env401Then200 envJwts ("O") 0 false (some tokensPrimaryOnly)).headersUsed =
      [get_auth_headers (ensureForRequest (some tokensPrimaryOnly) envJwts ("O") 0 false).1 false,
       get_auth_headers (some (loginSuccess (envJwts 0) 0)) false] :=
  request_401_then_200 env401Then200 envJwts ("O") 0 false (some tokensPrimaryOnly)
    (some ("{}")) (by decide) rfl rfl

/-- C3: against an endpoint answering 500 on every attempt, `_request`
performs exactly `MAX_RETRIES` attempts, sleeps
`RETRY_DELAY_SECONDS * 2 ^ attempt_index` between consecutive attempts (and
not after the last), performs no re-login, and then raises the final
request-failure error carrying the last HTTP 500 text. -/
theorem request_500_exhausts_retries (respond : Nat → HttpResp) (loginJwts : Nat → String)
    (otpTok : String) (now : ℤ) (itt : Bool) (tokens0 : Option DNSETokens)
    (text : String)
    (hauth : is_authenticated tokens0 now = true)
    (h : ∀ i, respond i = .errStatus 500 text) :
    (dnseRequest respond loginJwts otpTok now itt tokens0).attemptsMade = MAX_RETRIES ∧
    (dnseRequest respond loginJwts otpTok now itt tokens0).result =
      .failure (some ("HTTP " ++ toString 500 ++ ": " ++ text)) ∧
    (dnseRequest respond loginJwts otpTok now itt tokens0).sleeps =
      [RETRY_DELAY_SECONDS * 2 ^ 0, RETRY_DELAY_SECONDS * 2 ^ 1] ∧
    (dnseRequest respond loginJwts otpTok now itt tokens0).relogins = 0 := by
  have hz := ensureForRequest_snd_zero tokens0 loginJwts otpTok now itt hauth
  rcases hE : ensureForRequest tokens0 loginJwts otpTok now itt with ⟨t1, k⟩
  rw [hE] at hz
  simp only at hz
  subst hz
  unfold dnseRequest
  rw [hE]
  rw [show MAX_RETRIES = 2 + 1 from rfl, requestAttempts_succ]
  simp only [h]
  rw [show (2 : Nat) = 1 + 1 from rfl, requestAttempts_succ]
  simp only [h]
  rw [show (1 : Nat) = 0 + 1 from rfl, requestAttempts_succ]
  simp only [h]
  simp [requestAttempts_zero, mkTrace, MAX_RETRIES, pow_zero, pow_one, mul_one]

/-- C3 witness: a concrete always-500 environment starting from a valid
primary-only token state. -/
theorem request_500_exhausts_retries_witness :
    (dnseRequest envAll500 envJwts ("O") 0 false (some tokensPrimaryOnly)).attemptsMade
        = MAX_RETRIES ∧
    (dnseRequest envAll500 envJwts ("O") 0 false (some tokensPrimaryOnly)).result =
      .failure (some ("HTTP " ++ toString 500 ++ ": " ++ "boom")) ∧
    (dnseRequest envAll500 envJwts ("O") 0 false (some tokensPrimaryOnly)).sleeps =
      [RETRY_DELAY_SECONDS * 2 ^ 0, RETRY_DELAY_SECONDS * 2 ^ 1] ∧
    (dnseRequest envAll500 envJwts ("O") 0 false (some tokensPrimaryOnly)).relogins = 0 :=
  request_500_exhausts_retries envAll500 envJwts ("O") 0 false (some tokensPrimaryOnly)
    ("boom") (by decide) (fun _ => rfl)

/-- C10 counterexample: against an endpoint answering 401 on every attempt,
the raised `RuntimeError` does *not* carry the last observed status/error
text — the 401 branch never records `last_error`, so the failure carries
`None`. -/
theorem request_all401_error_text_cex :
    (dnseRequest envAll401 envJwts ("O") 0 false (some tokensPrimaryOnly)).result
        = .failure none ∧
    ReqResult.carriesErrorText
      (dnseRequest envAll401 envJwts ("O") 0 false (some tokensPrimaryOnly)).result
        = false := by
  exact ⟨rfl, rfl⟩

/-- C10 amended: against an endpoint answering 401 on every attempt,
`_request` terminates after exactly `MAX_RETRIES` attempts (each one
re-logging-in, with no backoff sleep) and raises the request-failure error —
whose recorded error text is `None`, because the 401 branch records no
status/error text. -/
theorem request_all401_bounded (respond : Nat → HttpResp) (loginJwts : Nat → String)
    (otpTok : String) (now : ℤ) (itt : Bool) (tokens0 : Option DNSETokens)
    (hauth : is_authenticated tokens0 now = true)
    (h : ∀ i, respond i = .unauthorized) :
    (dnseRequest respond loginJwts otpTok now itt tokens0).attemptsMade = MAX_RETRIES ∧
    (dnseRequest respond loginJwts otpTok now itt tokens0).relogins = MAX_RETRIES ∧
    (dnseRequest respond loginJwts otpTok now itt tokens0).sleeps = [] ∧
    (dnseRequest respond loginJwts otpTok now itt tokens0).result = .failure none := by
  have hz := ensureForRequest_snd_zero tokens0 loginJwts otpTok now itt hauth
  rcases hE : ensureForRequest tokens0 loginJwts otpTok now itt with ⟨t1, k⟩
  rw [hE] at hz
  simp only at hz
  subst hz
  unfold dnseRequest
  rw [hE]
  rw [show MAX_RETRIES = 2 + 1 from rfl, requestAttempts_succ]
  simp only [h]
  rw [show (2 : Nat) = 1 + 1 from rfl, requestAttempts_succ]
  simp only [h]
  rw [show (1 : Nat) = 0 + 1 from rfl, requestAttempts_succ]
  simp only [h]
  simp [requestAttempts_zero, mkTrace, MAX_RETRIES]

/-- C10 amended, witness: a concrete always-401 environment starting from a
valid primary-only token state. -/
theorem request_all401_bounded_witness :
    (dnseRequest envAll401 envJwts ("O") 0 false (some tokensPrimaryOnly)).attemptsMade
        = MAX_RETRIES ∧
    (dnseRequest envAll401 envJwts ("O") 0 false (some tokensPrimaryOnly)).relogins
        = MAX_RETRIES ∧
    (dnseRequest envAll401 envJwts ("O") 0 false (some tokensPrimaryOnly)).sleeps = [] ∧
    (dnseRequest envAll401 envJwts ("O") 0 false (some tokensPrimaryOnly)).result
        = .failure none :=
  request_all401_bounded envAll401 envJwts ("O") 0 false (some tokensPrimaryOnly)
    (by decide) (fun _ => rfl)

end DnseTrading
